import Mathlib

set_option maxRecDepth 8000

/-!
Shallow embedding of the AirAware AQI monitoring application core
(AirAware/utils/aqi_calculator.py and AirAware/utils/data_fetcher.py),
together with theorems settling the specification claims.

Concentrations, timestamps and interpolation arithmetic are modelled with
rationals; Python ints with integers; Python dicts with association lists
that preserve insertion order (the ordered-dict semantics of CPython).
-/

/-- The Python builtin round (bankers rounding, half to even) on a rational. -/
def pyRound (q : ℚ) : ℤ :=
  let f := q.floor
  let r := q - (f : ℚ)
  if r < 1/2 then f
  else if r > 1/2 then f + 1
  else if f % 2 = 0 then f else f + 1

/-- The Python round(x, d): round half to even at d decimal digits. -/
def pyRoundTo (q : ℚ) (d : ℕ) : ℚ :=
  (pyRound (q * (10 : ℚ) ^ d) : ℚ) / (10 : ℚ) ^ d

/-- One entry of AQI_CATEGORIES (aqi_calculator.py, lines 14-21). -/
structure Category where
  min : ℚ
  max : ℚ
  category : String
  color : String
  description : String
deriving DecidableEq

/-- The six CPCB category bands, aqi_calculator.py lines 14-21. -/
def AQI_CATEGORIES : List Category := [
  ⟨0, 50, "Good", "#00e400", "Minimal impact on health"⟩,
  ⟨51, 100, "Satisfactory", "#ffff00", "Minor breathing discomfort for sensitive people"⟩,
  ⟨101, 200, "Moderate", "#ff7e00", "Breathing discomfort for people with asthma and heart conditions"⟩,
  ⟨201, 300, "Poor", "#ff0000", "Breathing discomfort on prolonged exposure"⟩,
  ⟨301, 400, "Very Poor", "#99004c", "Respiratory illness on prolonged exposure"⟩,
  ⟨401, 500, "Severe", "#7e0023", "Affects healthy people, serious impact on those with existing conditions"⟩]

/-- Fallback record used to totalize the Python list indexing; AQI_CATEGORIES is
never empty so it is never returned. -/
def catFallback : Category := ⟨0, 0, "", "", ""⟩

/-- get_category_info (aqi_calculator.py, lines 133-143): linear scan over the
bands; above 500 the last band; otherwise default to the first band. -/
def get_category_info (aqi_value : ℚ) : Category :=
  match AQI_CATEGORIES.find? (fun cat => decide (cat.min ≤ aqi_value) && decide (aqi_value ≤ cat.max)) with
  | some cat => cat
  | none =>
    if aqi_value > 500 then AQI_CATEGORIES.getLastD catFallback
    else AQI_CATEGORIES.headD catFallback

/-- One linear interpolation segment of the breakpoint table. -/
structure Breakpoint where
  low_conc : ℚ
  high_conc : ℚ
  low_aqi : ℚ
  high_aqi : ℚ
deriving DecidableEq

/-- The linear interpolation formula of aqi_calculator.py lines 83-85,
followed by the Python round. -/
def interp (bp : Breakpoint) (c : ℚ) : ℤ :=
  pyRound ((bp.high_aqi - bp.low_aqi) / (bp.high_conc - bp.low_conc) * (c - bp.low_conc) + bp.low_aqi)

/-- Membership test of the for-loop guard, line 81: low_conc <= c <= high_conc. -/
def inBand (bp : Breakpoint) (c : ℚ) : Bool :=
  decide (bp.low_conc ≤ c) && decide (c ≤ bp.high_conc)

/-- Dictionary lookup BREAKPOINTS[pollutant] modelled on an association list. -/
def lookupTable (tbl : List (String × List Breakpoint)) (p : String) : Option (List Breakpoint) :=
  (tbl.find? (fun e => e.1 == p)).map (fun e => e.2)

/-- calculate_sub_index (aqi_calculator.py, lines 64-91), parametrized by the
breakpoint table: scan for the band containing the concentration and
interpolate; above the high_conc of the last band return 500; otherwise 0. -/
def calculate_sub_index (tbl : List (String × List Breakpoint)) (pollutant : String) (concentration : ℚ) : ℤ :=
  match lookupTable tbl pollutant with
  | none => 0
  | some breakpoints =>
    match breakpoints.find? (fun bp => inBand bp concentration) with
    | some bp => interp bp concentration
    | none =>
      match breakpoints.getLast? with
      | some lastBp => if lastBp.high_conc < concentration then 500 else 0
      | none => 0

/-- Modelled from the spec: the repository loads its breakpoint table from
AirAware/data/aqi_breakpoints.json, which is not among the available source
files. The pm25 bands are fixed by the spec and by the docstring of
get_demo_aqi_data in data_fetcher.py ("PM2.5: 0-30 to AQI 0-50, 31-60 to
51-100, 61-90 to 101-200, 91-120 to 201-300, 121-250 to 301-400, 251+ to
401-500"); the high_conc of the final band is taken as 500. The numeric bands of
the other five pollutants are not recorded in the available sources, so the
theorems below are stated for an arbitrary table and only instantiated here. -/
def PM25_BREAKPOINTS : List Breakpoint := [
  ⟨0, 30, 0, 50⟩,
  ⟨31, 60, 51, 100⟩,
  ⟨61, 90, 101, 200⟩,
  ⟨91, 120, 201, 300⟩,
  ⟨121, 250, 301, 400⟩,
  ⟨251, 500, 401, 500⟩]

/-- Modelled from the spec: the pollutant-keyed breakpoint table (the BREAKPOINTS
global of aqi_calculator.py); see PM25_BREAKPOINTS. -/
def AQI_BREAKPOINTS : List (String × List Breakpoint) := [("pm25", PM25_BREAKPOINTS)]

/-- The sub_indices dict built by the loop of calculate_aqi, lines 107-110:
one entry per pollutant whose concentration is non-null and >= 0, in the
insertion order of the input dict. -/
def contributingSubIndices (tbl : List (String × List Breakpoint))
    (pollutants : List (String × Option ℚ)) : List (String × ℤ) :=
  pollutants.filterMap (fun x =>
    match x.2 with
    | some c => if 0 ≤ c then some (x.1, calculate_sub_index tbl x.1 c) else none
    | none => none)

/-- Lines 113-118 of calculate_aqi: Python max over the dict values, and
max(sub_indices, key=sub_indices.get), which keeps the first key attaining
the maximum (the Python max replaces the current best only on a strict
increase). Empty dict gives (0, None). -/
def aggregateFrom (subs : List (String × ℤ)) : ℤ × Option String :=
  match subs with
  | [] => (0, none)
  | x :: rest =>
    (rest.foldl (fun a y => max a y.2) x.2,
     some (rest.foldl (fun b y => if y.2 > b.2 then y else b) x).1)

/-- Result record of calculate_aqi, lines 123-130. -/
structure AqiResult where
  aqi : ℤ
  category : String
  color : String
  description : String
  dominant_pollutant : Option String
  sub_indices : List (String × ℤ)
deriving DecidableEq

/-- calculate_aqi (aqi_calculator.py, lines 94-130), parametrized by the
breakpoint table; the input dict is an insertion-ordered association list. -/
def calculate_aqi (tbl : List (String × List Breakpoint))
    (pollutants : List (String × Option ℚ)) : AqiResult :=
  let subs := contributingSubIndices tbl pollutants
  let av := aggregateFrom subs
  let ci := get_category_info (av.1 : ℚ)
  ⟨av.1, ci.category, ci.color, ci.description, av.2, subs⟩

/-- The fixed six-pollutant vector of data_fetcher.py (aggregate_measurements
initializes every key to None, lines 101-108). -/
@[ext] structure PollutantVector where
  pm25 : Option ℚ
  pm10 : Option ℚ
  no2 : Option ℚ
  so2 : Option ℚ
  co : Option ℚ
  o3 : Option ℚ
deriving DecidableEq

/-- The all-null initial vector of aggregate_measurements. -/
def emptyVector : PollutantVector := ⟨none, none, none, none, none, none⟩

/-- One raw station measurement: a parameter name and an optional value
(measurement.get("parameter", "") and measurement.get("value")). -/
structure Measurement where
  parameter : String
  value : Option ℚ
deriving DecidableEq

/-- The validity filter of line 126: value is not None and value >= 0. -/
def validValue (m : Measurement) : Option ℚ :=
  match m.value with
  | none => none
  | some v => if 0 ≤ v then some v else none

/-- Lines 128-129: keep the highest value seen so far for a pollutant
(None is replaced, and a stored value only on a strict increase). -/
def maxOption (o : Option ℚ) (v : ℚ) : Option ℚ :=
  match o with
  | none => some v
  | some old => if v > old then some v else some old

/-- The body of the inner loop of aggregate_measurements (lines 120-129):
lowercase the parameter, check it against the six-key mapping, check the
value, and keep the per-pollutant maximum. -/
def applyMeasurement (pv : PollutantVector) (m : Measurement) : PollutantVector :=
  let param := m.parameter.toLower
  match validValue m with
  | none => pv
  | some v =>
    if param = "pm25" then { pv with pm25 := maxOption pv.pm25 v }
    else if param = "pm10" then { pv with pm10 := maxOption pv.pm10 v }
    else if param = "no2" then { pv with no2 := maxOption pv.no2 v }
    else if param = "so2" then { pv with so2 := maxOption pv.so2 v }
    else if param = "co" then { pv with co := maxOption pv.co v }
    else if param = "o3" then { pv with o3 := maxOption pv.o3 v }
    else pv

/-- aggregate_measurements (data_fetcher.py, lines 96-131): fold every
measurement of every station result into the all-null vector. Each station
result is modelled by its measurement list. -/
def aggregate_measurements (results : List (List Measurement)) : PollutantVector :=
  results.foldl (fun pv r => r.foldl applyMeasurement pv) emptyVector

/-- The valid readings of one pollutant key in a measurement list, in order. -/
def readsOf (key : String) (ms : List Measurement) : List ℚ :=
  ms.filterMap (fun m => if m.parameter.toLower = key then validValue m else none)

/-- All valid readings of one pollutant key across all station results. -/
def validReadings (results : List (List Measurement)) (key : String) : List ℚ :=
  readsOf key results.flatten

/-- Maximum of a list of readings, none when the list is empty. -/
def listMaxOption (l : List ℚ) : Option ℚ :=
  l.foldl maxOption none

/-- Binary maximum on optional readings (absent values are neutral). -/
def omax (o1 o2 : Option ℚ) : Option ℚ :=
  match o1, o2 with
  | none, o => o
  | some a, none => some a
  | some a, some b => some (max a b)

/-- Cache duration in seconds, data_fetcher.py line 19. -/
def CACHE_DURATION : ℚ := 1800

/-- get_cached_data (data_fetcher.py, lines 25-31): a stored entry is served
only while now - timestamp < CACHE_DURATION. The Python module-level dict is
modelled as an association list in which the most recent write for a key
shadows earlier ones (set_cache prepends, lookup takes the first match). -/
def get_cached_data {α : Type} (cache : List (String × α × ℚ)) (cache_key : String) (now : ℚ) : Option α :=
  match cache.find? (fun e => e.1 == cache_key) with
  | some e => if now - e.2.2 < CACHE_DURATION then some e.2.1 else none
  | none => none

/-- set_cache (data_fetcher.py, lines 34-36): store (data, now) under the key. -/
def set_cache {α : Type} (cache : List (String × α × ℚ)) (cache_key : String) (data : α) (now : ℚ) :
    List (String × α × ℚ) :=
  (cache_key, data, now) :: cache

/-- Outcome of one HTTP request attempt: requests.Timeout,
requests.RequestException, or a response with a status code and parsed body. -/
inductive FetchOutcome (β : Type) where
  | timeout : FetchOutcome β
  | requestError : FetchOutcome β
  | response (status : ℤ) (body : β) : FetchOutcome β

/-- fetch_aqi_from_openaq (data_fetcher.py, lines 39-93) with the mutable
module cache passed explicitly and the network modelled by the outcome
argument. A cached vector is served first (the cached dict always has six
keys, so Python truthiness is just presence); on a 200 response with a
non-empty results list the aggregate is stored and returned; every other
branch returns None and leaves the cache untouched. -/
def fetch_aqi_from_openaq (cache : List (String × PollutantVector × ℚ)) (city : String) (now : ℚ)
    (outcome : FetchOutcome (List (List Measurement))) :
    Option PollutantVector × List (String × PollutantVector × ℚ) :=
  let cache_key := "openaq_" ++ city
  match get_cached_data cache cache_key now with
  | some cached => (some cached, cache)
  | none =>
    match outcome with
    | FetchOutcome.response status results =>
      if status = 200 then
        if results.isEmpty then (none, cache)
        else
          let pollutants := aggregate_measurements results
          (some pollutants, set_cache cache cache_key pollutants now)
      else (none, cache)
    | FetchOutcome.timeout => (none, cache)
    | FetchOutcome.requestError => (none, cache)

/-- One entry of the hourly_forecast list built by get_demo_weather. -/
structure ForecastEntry where
  time : String
  temp : ℤ
  icon : String
  condition : String
deriving DecidableEq

/-- The weather snapshot dict. the live branch of fetch_weather has no
hourly_forecast key; that is modelled by an empty list there. The icon
glyphs of the source are opaque string constants and are abbreviated. -/
structure Weather where
  temperature : ℤ
  feels_like : ℤ
  humidity : ℤ
  wind_speed : ℤ
  wind_direction : ℤ
  description : String
  icon : String
  hourly_forecast : List ForecastEntry
deriving DecidableEq

/-- The fields of a successful OpenWeatherMap response body that
fetch_weather reads (data_fetcher.py, lines 276-284). -/
structure WeatherResp where
  temp : ℚ
  feels_like : ℚ
  humidity : ℤ
  wind_speed : ℚ
  wind_deg : ℤ
  description : String
  icon : String

/-- Lines 276-284: build the weather dict from a 200 response (round the
temperatures, convert wind speed from m/s to km/h; the .title() formatting
of the description is presentational and kept as the raw string). -/
def buildWeather (r : WeatherResp) : Weather :=
  ⟨pyRound r.temp, pyRound r.feels_like, r.humidity,
   pyRound (r.wind_speed * 36 / 10), r.wind_deg, r.description, r.icon, []⟩

/-- fetch_weather (data_fetcher.py, lines 243-293) with the module cache and
the network outcome explicit. The demo argument stands for the
get_demo_weather() call (which reads the clock and builds a seeded
generator). Only a 200 response is stored in the cache; a missing API key,
a non-200 status, a timeout or a transport error all fall back to the demo
snapshot and leave the cache untouched. -/
def fetch_weather (cache : List (String × Weather × ℚ)) (lat lng : ℚ) (now : ℚ)
    (hasApiKey : Bool) (outcome : FetchOutcome WeatherResp) (demo : Weather) :
    Weather × List (String × Weather × ℚ) :=
  let cache_key := "weather_" ++ toString lat ++ "_" ++ toString lng
  match get_cached_data cache cache_key now with
  | some cached => (cached, cache)
  | none =>
    if hasApiKey = false then (demo, cache)
    else
      match outcome with
      | FetchOutcome.response status r =>
        if status = 200 then
          let w := buildWeather r
          (w, set_cache cache cache_key w now)
        else (demo, cache)
      | FetchOutcome.timeout => (demo, cache)
      | FetchOutcome.requestError => (demo, cache)

/-- State of a pseudo-random source: a stream of unit-interval rationals and
a position. A call of the global random module consumes one stream value and
advances the position; the stream itself models the entropy of the generator. -/
structure RngState where
  stream : ℕ → ℚ
  pos : ℕ

/-- Draw one unit-interval value and advance the generator. -/
def nextUnit (g : RngState) : ℚ × RngState :=
  (g.stream g.pos, ⟨g.stream, g.pos + 1⟩)

/-- random.uniform(a, b): a + (b - a) * u for one drawn unit value u. -/
def uniformR (a b : ℚ) (g : RngState) : ℚ × RngState :=
  let (u, g2) := nextUnit g
  (a + (b - a) * u, g2)

/-- random.randint(a, b): an integer of [a, b] drawn from one unit value. -/
def randintR (a b : ℤ) (g : RngState) : ℤ × RngState :=
  let (u, g2) := nextUnit g
  (a + min (((b - a + 1 : ℚ) * u).floor) (b - a), g2)

/-- random.choice(l): pick an element using one drawn unit value (the
default is only for the untaken out-of-range case, as l is never empty). -/
def choiceR {α : Type} (l : List α) (d : α) (g : RngState) : α × RngState :=
  let (u, g2) := nextUnit g
  (l.getD (((l.length : ℚ) * u).floor.toNat) d, g2)

/-- The city pollution profile table of get_demo_aqi_data (data_fetcher.py,
lines 380-475): (pm25_min, pm25_max, target_aqi_min, target_aqi_max). -/
def city_profiles : List (String × ℚ × ℚ × ℚ × ℚ) := [
  ("Delhi", 100, 220, 250, 450),
  ("Ghaziabad", 110, 240, 280, 480),
  ("Noida", 95, 210, 240, 430),
  ("Gurugram", 95, 200, 240, 420),
  ("Faridabad", 100, 220, 250, 450),
  ("Greater Noida", 105, 230, 260, 460),
  ("Patna", 75, 140, 150, 320),
  ("Lucknow", 70, 130, 140, 300),
  ("Kanpur", 72, 135, 145, 310),
  ("Muzaffarpur", 78, 145, 160, 330),
  ("Varanasi", 68, 125, 135, 290),
  ("Agra", 65, 120, 130, 280),
  ("Meerut", 72, 130, 145, 300),
  ("Dhanbad", 70, 128, 140, 295),
  ("Jamshedpur", 65, 120, 130, 280),
  ("Bhilai", 62, 115, 125, 270),
  ("Raipur", 58, 110, 115, 260),
  ("Ludhiana", 75, 145, 150, 330),
  ("Amritsar", 70, 138, 140, 315),
  ("Jalandhar", 65, 130, 130, 300),
  ("Patiala", 70, 135, 140, 310),
  ("Chandigarh", 60, 120, 120, 280),
  ("Bathinda", 75, 142, 150, 325),
  ("Prayagraj", 70, 130, 140, 300),
  ("Gorakhpur", 72, 135, 145, 310),
  ("Bareilly", 70, 130, 140, 300),
  ("Aligarh", 75, 138, 150, 315),
  ("Moradabad", 70, 130, 140, 300),
  ("Mumbai", 61, 88, 101, 195),
  ("Kolkata", 63, 90, 105, 200),
  ("Ahmedabad", 65, 90, 108, 200),
  ("Hyderabad", 58, 85, 95, 188),
  ("Surat", 60, 88, 100, 195),
  ("Jaipur", 63, 90, 105, 200),
  ("Nagpur", 60, 87, 100, 192),
  ("Indore", 58, 85, 95, 188),
  ("Bhopal", 60, 88, 100, 195),
  ("Thane", 58, 86, 95, 190),
  ("Nashik", 55, 82, 90, 180),
  ("Rajkot", 58, 85, 95, 188),
  ("Vadodara", 60, 88, 100, 195),
  ("Jodhpur", 62, 89, 103, 198),
  ("Udaipur", 55, 80, 90, 175),
  ("Jamnagar", 56, 82, 92, 180),
  ("Bhubaneswar", 55, 82, 90, 180),
  ("Cuttack", 56, 83, 92, 182),
  ("Siliguri", 58, 85, 95, 188),
  ("Durgapur", 63, 90, 105, 200),
  ("Asansol", 65, 92, 108, 205),
  ("Guwahati", 55, 80, 90, 175),
  ("Agartala", 52, 78, 85, 170),
  ("Chennai", 28, 65, 50, 115),
  ("Bengaluru", 30, 68, 52, 118),
  ("Pune", 28, 65, 50, 115),
  ("Kochi", 18, 52, 35, 88),
  ("Thiruvananthapuram", 15, 48, 30, 82),
  ("Coimbatore", 22, 58, 42, 98),
  ("Mangaluru", 15, 48, 30, 82),
  ("Visakhapatnam", 22, 60, 42, 100),
  ("Mysuru", 18, 54, 35, 92),
  ("Madurai", 25, 62, 45, 105),
  ("Kozhikode", 14, 46, 28, 78),
  ("Panaji", 12, 42, 24, 72),
  ("Margao", 12, 42, 24, 72),
  ("Shimla", 8, 28, 15, 52),
  ("Manali", 6, 25, 12, 48),
  ("Dharamshala", 8, 27, 15, 50),
  ("Gangtok", 6, 24, 12, 45),
  ("Shillong", 10, 30, 18, 55),
  ("Aizawl", 8, 26, 15, 48),
  ("Kohima", 8, 27, 15, 50),
  ("Imphal", 10, 28, 18, 52),
  ("Itanagar", 8, 27, 15, 50),
  ("Port Blair", 5, 22, 10, 42),
  ("Leh", 4, 18, 8, 35),
  ("Rishikesh", 12, 38, 22, 65),
  ("Haridwar", 15, 42, 28, 72),
  ("Dehradun", 18, 48, 32, 82),
  ("Ooty", 5, 22, 10, 42),
  ("Munnar", 4, 18, 8, 35)]

/-- get_demo_aqi_data (data_fetcher.py, lines 364-509). The function reads
the city profile (default (55, 82, 90, 180)) and draws six values from the
UNSEEDED global random generator, in source order: pm25, the pm10 ratio,
then no2, so2, co and o3 raw samples; it never reads the clock, so the
generator state is its only varying input. -/
def get_demo_aqi_data (city : String) (g : RngState) : PollutantVector × RngState :=
  let prof := ((city_profiles.find? (fun e => e.1 == city)).map (fun e => e.2)).getD (55, 82, 90, 180)
  let pm25_min := prof.1
  let pm25_max := prof.2.1
  let (pm25, g1) := uniformR pm25_min pm25_max g
  let multiplier : ℚ :=
    if pm25 ≤ 30 then 3/10
    else if pm25 ≤ 60 then 6/10
    else if pm25 ≤ 90 then 1
    else if pm25 ≤ 120 then 14/10
    else 18/10
  let (r_pm10, g2) := uniformR (15/10) (22/10) g1
  let pm10 := pm25 * r_pm10
  let (no2_raw, g3) := uniformR 12 60 g2
  let (so2_raw, g4) := uniformR 6 35 g3
  let (co_raw, g5) := uniformR (2/10) 2 g4
  let (o3_raw, g6) := uniformR 20 80 g5
  (⟨some (pyRoundTo pm25 1), some (pyRoundTo pm10 1),
    some (pyRoundTo (no2_raw * multiplier) 1), some (pyRoundTo (so2_raw * multiplier) 1),
    some (pyRoundTo (co_raw * multiplier) 2), some (pyRoundTo (o3_raw * multiplier) 1)⟩, g6)

/-- A wall-clock instant as get_demo_weather reads it: the date fields and
hour feed the seed, the minute does not. -/
structure Timestamp where
  year : ℤ
  month : ℤ
  day : ℤ
  hour : ℤ
  minute : ℤ

/-- int(now.strftime("%Y%m%d%H")), data_fetcher.py line 302: the seed is
derived from the current hour bucket only. -/
def seedOf (t : Timestamp) : ℤ :=
  ((t.year * 100 + t.month) * 100 + t.day) * 100 + t.hour

/-- The day_conditions list of get_demo_weather, lines 309-315
(condition, icon). -/
def day_conditions : List (String × String) := [
  ("Clear Sky", "sun"),
  ("Partly Cloudy", "sun_cloud"),
  ("Scattered Clouds", "cloud_sun"),
  ("Cloudy", "cloud"),
  ("Hazy", "fog")]

/-- Zero-padded hour label of line 343: the hour printed as two digits, followed by :00. -/
def hourLabel (h : ℤ) : String :=
  (if h < 10 then ("0") else ("")) ++ toString h ++ ":00"

/-- One iteration of the hourly-forecast loop of get_demo_weather,
lines 317-350. -/
def demoForecastStep (base_temp current_hour : ℤ) (i : ℕ) (g : RngState) :
    ForecastEntry × RngState :=
  let hour := (current_hour + i) % 24
  let (temp_offset, g1) :=
    if 6 ≤ hour ∧ hour ≤ 14 then randintR (-2) 4 g
    else if 14 < hour ∧ hour ≤ 18 then randintR (-4) 0 g
    else randintR (-8) (-3) g
  let forecast_temp := base_temp + temp_offset
  let (cond, g2) :=
    if hour ≥ 19 ∨ hour < 6 then
      let (u, g2a) := nextUnit g1
      (if u < 1/2 then ("Clear Night", "moon") else ("Partly Cloudy", "cloud"), g2a)
    else choiceR day_conditions ("Clear Sky", "sun") g1
  let time_label := if i = 0 then ("Now") else hourLabel hour
  (⟨time_label, forecast_temp, cond.2, cond.1⟩, g2)

/-- The six-slot forecast loop, threading the seeded generator. -/
def demoForecastFrom (base_temp current_hour : ℤ) (i : ℕ) (fuel : ℕ) (g : RngState) :
    List ForecastEntry × RngState :=
  match fuel with
  | 0 => ([], g)
  | fuel2 + 1 =>
    let (e, g1) := demoForecastStep base_temp current_hour i g
    let (rest, g2) := demoForecastFrom base_temp current_hour (i + 1) fuel2 g1
    (e :: rest, g2)

/-- The descriptions list of line 358. -/
def WEATHER_DESCRIPTIONS : List String :=
  [("Clear Sky"), ("Partly Cloudy"), ("Hazy"), ("Scattered Clouds")]

/-- get_demo_weather (data_fetcher.py, lines 296-361). random.Random(seed) is
modelled by an arbitrary generator constructor prng applied to the seed of
the current hour bucket; every subsequent draw comes from that local seeded
generator, in source order. -/
def get_demo_weather (prng : ℤ → RngState) (now : Timestamp) : Weather :=
  let current_hour := now.hour
  let g := prng (seedOf now)
  let (base_temp, g1) := randintR 18 35 g
  let (hf, g2) := demoForecastFrom base_temp current_hour 0 6 g1
  let (fl_off, g3) := randintR (-2) 3 g2
  let (hum, g4) := randintR 30 80 g3
  let (ws, g5) := randintR 5 25 g4
  let (wd, g6) := randintR 0 360 g5
  let (desc, _) := choiceR WEATHER_DESCRIPTIONS ("Clear Sky") g6
  ⟨base_temp, base_temp + fl_off, hum, ws, wd, desc, "01d", hf⟩

/-- all(v is None for v in pollutants.values()), data_fetcher.py line 592. -/
def allNull (pv : PollutantVector) : Bool :=
  pv.pm25.isNone && pv.pm10.isNone && pv.no2.isNone && pv.so2.isNone && pv.co.isNone && pv.o3.isNone

/-- The data-source selection of get_city_data (data_fetcher.py, lines
584-596): fetch the live vector, and when it is absent or has every field
null, substitute the vector of the demo synthesizer (drawn from the global
generator state g) and tag the report "demo"; otherwise use the live vector
and tag it "openaq". The returned pair is the (pollutants, data_source)
part of the CityReport. -/
def get_city_data_source (cache : List (String × PollutantVector × ℚ)) (city : String) (now : ℚ)
    (outcome : FetchOutcome (List (List Measurement))) (g : RngState) :
    PollutantVector × String :=
  let fetched := (fetch_aqi_from_openaq cache city now outcome).1
  match fetched with
  | none => ((get_demo_aqi_data city g).1, "demo")
  | some pv =>
    if allNull pv then ((get_demo_aqi_data city g).1, "demo")
    else (pv, "openaq")

/-- A failed OpenAQ fetch attempt as enumerated by fetch_aqi_from_openaq:
timeout, transport error, non-success status, or an empty results list. -/
def aqiFetchFailed (o : FetchOutcome (List (List Measurement))) : Prop :=
  match o with
  | FetchOutcome.response status results => status ≠ 200 ∨ results = []
  | FetchOutcome.timeout => True
  | FetchOutcome.requestError => True

/-- A failed OpenWeatherMap fetch attempt: timeout, transport error, or a
non-success status. -/
def weatherFetchFailed (o : FetchOutcome WeatherResp) : Prop :=
  match o with
  | FetchOutcome.response status _ => status ≠ 200
  | FetchOutcome.timeout => True
  | FetchOutcome.requestError => True

/-- A concrete global-generator state: the first six draws return 0, all
later draws return 1. It plays the role of the CPython global Mersenne
Twister state at the moment of a first get_demo_aqi_data call. -/
def gAlternating : RngState := ⟨fun n => if n < 6 then 0 else 1, 0⟩

/-- Well-formedness of the breakpoint list of one pollutant, as the spec states
it: each segment has low_conc <= high_conc, and consecutive segments are
ordered (previous high_conc <= next low_conc). -/
def bandsWFb : List Breakpoint → Bool
  | [] => true
  | [bp] => decide (bp.low_conc ≤ bp.high_conc)
  | bp :: bp2 :: rest =>
    decide (bp.low_conc ≤ bp.high_conc) && decide (bp.high_conc ≤ bp2.low_conc) &&
      bandsWFb (bp2 :: rest)

/-- C7: a set_cache(key, value) followed by get_cached_data(key) at a time t
with t - fetched_at < TTL returns the stored value unchanged; at a time with
t - fetched_at >= TTL it is a miss regardless of the stored value, while the
stale entry stays in the store (it is still the entry found for the key,
until a later successful fetch overwrites it). -/
theorem ttl_cache_hit_then_expiry {α : Type} (cache : List (String × α × ℚ)) (key : String)
    (v : α) (tput tget : ℚ) :
    (tget - tput < CACHE_DURATION →
      get_cached_data (set_cache cache key v tput) key tget = some v) ∧
    (CACHE_DURATION ≤ tget - tput →
      get_cached_data (set_cache cache key v tput) key tget = none ∧
      (set_cache cache key v tput).find? (fun e => e.1 == key) = some (key, v, tput)) := by
  refine ⟨fun h => ?_, fun h => ⟨?_, ?_⟩⟩
  · simp [get_cached_data, set_cache, h]
  · simp [get_cached_data, set_cache, not_lt.mpr h]
  · simp [set_cache]

/-- Witness for C7 at a concrete key, value and pair of times. -/
theorem ttl_cache_hit_then_expiry_witness :
    get_cached_data (set_cache ([] : List (String × ℤ × ℚ)) ("k") 7 0) ("k") 10 = some 7 ∧
    get_cached_data (set_cache ([] : List (String × ℤ × ℚ)) ("k") 7 0) ("k") 1800 = none :=
  ⟨(ttl_cache_hit_then_expiry [] ("k") 7 0 10).1 (by norm_num [CACHE_DURATION]),
   ((ttl_cache_hit_then_expiry [] ("k") 7 0 1800).2 (by norm_num [CACHE_DURATION])).1⟩

/-- C8: a failed live fetch (timeout, transport error, non-success status,
or empty result set) never modifies the cache, for the pollutant fetch and
the weather fetch alike; when the key was not already cached, the pollutant
fetch reports the miss with None and the weather fetch falls back to the
demo snapshot, so no failure is ever served from the cache later. -/
theorem failed_fetch_never_cached (cacheA : List (String × PollutantVector × ℚ))
    (city : String) (now : ℚ) (o1 : FetchOutcome (List (List Measurement)))
    (cacheW : List (String × Weather × ℚ)) (lat lng : ℚ) (hasApiKey : Bool)
    (o2 : FetchOutcome WeatherResp) (demo : Weather)
    (h1 : aqiFetchFailed o1) (h2 : weatherFetchFailed o2) :
    ((fetch_aqi_from_openaq cacheA city now o1).2 = cacheA ∧
      (get_cached_data cacheA ("openaq_" ++ city) now = none →
        (fetch_aqi_from_openaq cacheA city now o1).1 = none)) ∧
    ((fetch_weather cacheW lat lng now hasApiKey o2 demo).2 = cacheW ∧
      (get_cached_data cacheW ("weather_" ++ toString lat ++ "_" ++ toString lng) now = none →
        (fetch_weather cacheW lat lng now hasApiKey o2 demo).1 = demo)) := by
  constructor
  · cases hc : get_cached_data cacheA ("openaq_" ++ city) now with
    | some cached => simp [fetch_aqi_from_openaq, hc]
    | none =>
      cases o1 with
      | timeout => simp [fetch_aqi_from_openaq, hc]
      | requestError => simp [fetch_aqi_from_openaq, hc]
      | response status results =>
        rcases h1 with hs | hr
        · simp [fetch_aqi_from_openaq, hc, hs]
        · by_cases h200 : status = 200 <;>
            simp [fetch_aqi_from_openaq, hc, hr, h200]
  · cases hc : get_cached_data cacheW ("weather_" ++ toString lat ++ "_" ++ toString lng) now with
    | some cached => simp [fetch_weather, hc]
    | none =>
      cases hk : hasApiKey with
      | false => simp [fetch_weather, hc]
      | true =>
        cases o2 with
        | timeout => simp [fetch_weather, hc]
        | requestError => simp [fetch_weather, hc]
        | response status r =>
          simp only [weatherFetchFailed] at h2
          simp [fetch_weather, hc, h2]

/-- Witness for C8: a timed-out pollutant fetch and a 500-status weather
fetch on empty caches store nothing and fall through. -/
theorem failed_fetch_never_cached_witness :
    ((fetch_aqi_from_openaq [] ("Delhi") 0 FetchOutcome.timeout).2 = [] ∧
      (get_cached_data ([] : List (String × PollutantVector × ℚ)) ("openaq_" ++ "Delhi") 0 = none →
        (fetch_aqi_from_openaq [] ("Delhi") 0 FetchOutcome.timeout).1 = none)) ∧
    ((fetch_weather [] 28 77 0 true (FetchOutcome.response 500 ⟨0, 0, 0, 0, 0, "", ""⟩)
        (buildWeather ⟨20, 20, 40, 2, 90, "Hazy", "01d"⟩)).2 = [] ∧
      (get_cached_data ([] : List (String × Weather × ℚ)) ("weather_" ++ toString (28 : ℚ) ++ "_" ++ toString (77 : ℚ)) 0 = none →
        (fetch_weather [] 28 77 0 true (FetchOutcome.response 500 ⟨0, 0, 0, 0, 0, "", ""⟩)
          (buildWeather ⟨20, 20, 40, 2, 90, "Hazy", "01d"⟩)).1 =
            buildWeather ⟨20, 20, 40, 2, 90, "Hazy", "01d"⟩)) :=
  failed_fetch_never_cached [] ("Delhi") 0 FetchOutcome.timeout [] 28 77 true
    (FetchOutcome.response 500 ⟨0, 0, 0, 0, 0, "", ""⟩)
    (buildWeather ⟨20, 20, 40, 2, 90, "Hazy", "01d"⟩) trivial (by simp [weatherFetchFailed])

/-- C9: when the live fetch yields no vector, or a vector whose every field
is null, get_city_data builds the report from the vector of the demo synthesizer
and tags its provenance "demo"; when at least one field is non-null the live
vector is used and the provenance is "openaq". -/
theorem get_city_data_provenance (cache : List (String × PollutantVector × ℚ)) (city : String)
    (now : ℚ) (o : FetchOutcome (List (List Measurement))) (g : RngState) :
    (((fetch_aqi_from_openaq cache city now o).1 = none ∨
        (∃ pv, (fetch_aqi_from_openaq cache city now o).1 = some pv ∧ allNull pv = true)) →
      get_city_data_source cache city now o g = ((get_demo_aqi_data city g).1, "demo")) ∧
    (∀ pv, (fetch_aqi_from_openaq cache city now o).1 = some pv → allNull pv = false →
      get_city_data_source cache city now o g = (pv, "openaq")) := by
  constructor
  · rintro (hnone | ⟨pv, hpv, hnull⟩)
    · simp [get_city_data_source, hnone]
    · simp [get_city_data_source, hpv, hnull]
  · intro pv hpv hnull
    simp [get_city_data_source, hpv, hnull]

/-- Witness for C9: a timed-out fetch produces the demo vector tagged
"demo", and an all-null live 200 response is likewise treated as a miss. -/
theorem get_city_data_provenance_witness :
    get_city_data_source [] ("Delhi") 0 FetchOutcome.timeout gAlternating =
      ((get_demo_aqi_data ("Delhi") gAlternating).1, "demo") ∧
    get_city_data_source [] ("Delhi") 0
        (FetchOutcome.response 200 [[⟨"pm25", some 42⟩]]) gAlternating =
      (aggregate_measurements [[⟨"pm25", some 42⟩]], "openaq") :=
  ⟨(get_city_data_provenance [] ("Delhi") 0 FetchOutcome.timeout gAlternating).1
      (Or.inl (by with_unfolding_all decide)),
   (get_city_data_provenance [] ("Delhi") 0
        (FetchOutcome.response 200 [[⟨"pm25", some 42⟩]]) gAlternating).2
      (aggregate_measurements [[⟨"pm25", some 42⟩]])
      (by with_unfolding_all decide) (by with_unfolding_all decide)⟩

/-- C10: any value that lies in no category band and is not above 500 (a
negative value, or a non-integer value strictly between two adjacent bands
such as 100.5) makes get_category_info return the "Good" band as a silent
default rather than failing or reporting an out-of-range condition. -/
theorem get_category_info_silent_default (x : ℚ)
    (hno : ∀ cat ∈ AQI_CATEGORIES, ¬(cat.min ≤ x ∧ x ≤ cat.max)) (hle : x ≤ 500) :
    get_category_info x = ⟨0, 50, "Good", "#00e400", "Minimal impact on health"⟩ := by
  have hfind : AQI_CATEGORIES.find?
      (fun cat => decide (cat.min ≤ x) && decide (x ≤ cat.max)) = none := by
    apply List.find?_eq_none.mpr
    intro cat hcat
    simpa using hno cat hcat
  simp only [get_category_info, hfind]
  simp [not_lt.mpr hle, AQI_CATEGORIES, catFallback]

/-- Witness for C10 at 100.5 (between the Satisfactory and Moderate bands)
and at -1 (below every band). -/
theorem get_category_info_silent_default_witness :
    get_category_info (201/2) = ⟨0, 50, "Good", "#00e400", "Minimal impact on health"⟩ ∧
    get_category_info (-1) = ⟨0, 50, "Good", "#00e400", "Minimal impact on health"⟩ :=
  ⟨get_category_info_silent_default (201/2) (by with_unfolding_all decide) (by with_unfolding_all decide),
   get_category_info_silent_default (-1) (by with_unfolding_all decide) (by with_unfolding_all decide)⟩

/-- C2, counterexample: get_demo_aqi_data draws from the unseeded global
generator and never reads the clock, so two successive calls for the same
location (hence within the same wall-clock hour, the second call receiving
the generator state the first call left behind) can return different
PollutantVectors. -/
theorem get_demo_aqi_data_nondeterministic :
    (get_demo_aqi_data ("Delhi") gAlternating).1 ≠
      (get_demo_aqi_data ("Delhi") ((get_demo_aqi_data ("Delhi") gAlternating).2)).1 := by
  with_unfolding_all decide

/-- C2, amended: the hour-bucket determinism claimed by the spec does hold
for get_demo_weather, whose generator is seeded from a value derived from
the current hour (int(now.strftime("%Y%m%d%H"))): for any generator
constructor, two calls within the same wall-clock hour (any minute) return
identical snapshots. -/
theorem get_demo_weather_hour_deterministic (prng : ℤ → RngState) (t1 t2 : Timestamp)
    (hy : t1.year = t2.year) (hm : t1.month = t2.month) (hd : t1.day = t2.day)
    (hh : t1.hour = t2.hour) :
    get_demo_weather prng t1 = get_demo_weather prng t2 := by
  simp only [get_demo_weather, seedOf, hy, hm, hd, hh]

/-- Witness for the amended C2: two calls 42 minutes apart in the same hour
agree. -/
theorem get_demo_weather_hour_deterministic_witness :
    get_demo_weather (fun _ => ⟨fun _ => 0, 0⟩) ⟨2026, 10, 12, 9, 5⟩ =
      get_demo_weather (fun _ => ⟨fun _ => 0, 0⟩) ⟨2026, 10, 12, 9, 47⟩ :=
  get_demo_weather_hour_deterministic (fun _ => ⟨fun _ => 0, 0⟩) ⟨2026, 10, 12, 9, 5⟩
    ⟨2026, 10, 12, 9, 47⟩ rfl rfl rfl rfl

/-- In a well-formed band list the bounds of the first segment are ordered. -/
theorem bandsWFb_head_le {bp : Breakpoint} {rest : List Breakpoint}
    (h : bandsWFb (bp :: rest) = true) : bp.low_conc ≤ bp.high_conc := by
  cases rest with
  | nil => simpa [bandsWFb] using h
  | cons b2 t =>
    simp only [bandsWFb, Bool.and_eq_true, decide_eq_true_eq] at h
    exact h.1.1

/-- Well-formedness passes to the tail of the band list. -/
theorem bandsWFb_tail {bp b2 : Breakpoint} {t : List Breakpoint}
    (h : bandsWFb (bp :: b2 :: t) = true) : bandsWFb (b2 :: t) = true := by
  simp only [bandsWFb, Bool.and_eq_true, decide_eq_true_eq] at h
  exact h.2

/-- In a well-formed band list consecutive segments are ordered. -/
theorem bandsWFb_step {bp b2 : Breakpoint} {t : List Breakpoint}
    (h : bandsWFb (bp :: b2 :: t) = true) : bp.high_conc ≤ b2.low_conc := by
  simp only [bandsWFb, Bool.and_eq_true, decide_eq_true_eq] at h
  exact h.1.2

/-- In a well-formed band list every high_conc is bounded by the last one. -/
theorem bandsWFb_high_le_last : ∀ (bps : List Breakpoint) (lb : Breakpoint),
    bandsWFb bps = true → bps.getLast? = some lb →
    ∀ bp ∈ bps, bp.high_conc ≤ lb.high_conc := by
  intro bps
  induction bps with
  | nil => intro lb _ hlast; simp at hlast
  | cons a rest ih =>
    intro lb hwf hlast bp hbp
    cases rest with
    | nil =>
      simp only [List.getLast?_singleton, Option.some.injEq] at hlast
      subst hlast
      simp only [List.mem_singleton] at hbp
      subst hbp
      exact le_refl _
    | cons b2 t =>
      have hlast2 : (b2 :: t).getLast? = some lb := by
        simpa [List.getLast?_cons_cons] using hlast
      have hwf2 : bandsWFb (b2 :: t) = true := bandsWFb_tail hwf
      have hb2 : b2.high_conc ≤ lb.high_conc := ih lb hwf2 hlast2 b2 (by simp)
      rcases List.mem_cons.mp hbp with rfl | hbp2
      · have h1 : bp.high_conc ≤ b2.low_conc := bandsWFb_step hwf
        have h2 : b2.low_conc ≤ b2.high_conc := bandsWFb_head_le hwf2
        linarith
      · exact ih lb hwf2 hlast2 bp hbp2

/-- In a well-formed band list every low_conc is at least the first one. -/
theorem bandsWFb_head_low_le : ∀ (rest : List Breakpoint) (bp0 : Breakpoint),
    bandsWFb (bp0 :: rest) = true →
    ∀ bp ∈ bp0 :: rest, bp0.low_conc ≤ bp.low_conc := by
  intro rest
  induction rest with
  | nil =>
    intro bp0 _ bp hbp
    simp only [List.mem_singleton] at hbp
    subst hbp
    exact le_refl _
  | cons b2 t ih =>
    intro bp0 hwf bp hbp
    rcases List.mem_cons.mp hbp with rfl | hbp2
    · exact le_refl _
    · have h1 : bp0.low_conc ≤ bp0.high_conc := bandsWFb_head_le hwf
      have h2 : bp0.high_conc ≤ b2.low_conc := bandsWFb_step hwf
      have h3 := ih b2 (bandsWFb_tail hwf) bp hbp2
      linarith

/-- C3: for every pollutant recognized by a well-formed breakpoint table and
every concentration strictly greater than the high_conc of the last segment,
calculate_sub_index returns exactly 500: the band scan finds no segment and
the saturation branch fires (no extrapolation past the worst band). -/
theorem calculate_sub_index_saturates (tbl : List (String × List Breakpoint)) (p : String)
    (bps : List Breakpoint) (lb : Breakpoint) (c : ℚ)
    (hlook : lookupTable tbl p = some bps) (hwf : bandsWFb bps = true)
    (hlast : bps.getLast? = some lb) (hc : lb.high_conc < c) :
    calculate_sub_index tbl p c = 500 := by
  have hnone : bps.find? (fun bp => inBand bp c) = none := by
    apply List.find?_eq_none.mpr
    intro bp hbp
    have hle := bandsWFb_high_le_last bps lb hwf hlast bp hbp
    simp only [inBand, Bool.and_eq_true, decide_eq_true_eq, not_and]
    intro _ h2
    linarith
  simp [calculate_sub_index, hlook, hnone, hlast, hc]

/-- Witness for C3: pm25 at concentration 1000 (above the last band)
saturates at 500. -/
theorem calculate_sub_index_saturates_witness :
    calculate_sub_index AQI_BREAKPOINTS ("pm25") 1000 = 500 :=
  calculate_sub_index_saturates AQI_BREAKPOINTS ("pm25") PM25_BREAKPOINTS
    ⟨251, 500, 401, 500⟩ 1000 (by with_unfolding_all decide) (by with_unfolding_all decide)
    (by with_unfolding_all decide) (by with_unfolding_all decide)

/-- C4, counterexample: at pm25 concentration -30, strictly below the
low_conc of the lowest band, calculate_sub_index returns 0, while the
lowest-segment linear-interpolation formula evaluates to -50; so the returned value is NOT
the lowest-segment formula value (only the non-negativity part of the
claim holds). -/
theorem calculate_sub_index_below_lowest_counterexample :
    calculate_sub_index AQI_BREAKPOINTS ("pm25") (-30) = 0 ∧
    interp ⟨0, 30, 0, 50⟩ (-30) = -50 ∧
    calculate_sub_index AQI_BREAKPOINTS ("pm25") (-30) ≠ interp ⟨0, 30, 0, 50⟩ (-30) := by
  with_unfolding_all decide

/-- C4, amended: for every pollutant recognized by a well-formed breakpoint
table and every concentration strictly below the low_conc of the lowest segment,
calculate_sub_index returns 0 (no band matches and the saturation branch
cannot fire), which in particular is never negative. -/
theorem calculate_sub_index_below_lowest (tbl : List (String × List Breakpoint)) (p : String)
    (bp0 : Breakpoint) (rest : List Breakpoint) (c : ℚ)
    (hlook : lookupTable tbl p = some (bp0 :: rest)) (hwf : bandsWFb (bp0 :: rest) = true)
    (hc : c < bp0.low_conc) :
    calculate_sub_index tbl p c = 0 ∧ (0 : ℤ) ≤ calculate_sub_index tbl p c := by
  have hnone : (bp0 :: rest).find? (fun bp => inBand bp c) = none := by
    apply List.find?_eq_none.mpr
    intro bp hbp
    have hle := bandsWFb_head_low_le rest bp0 hwf bp hbp
    simp only [inBand, Bool.and_eq_true, decide_eq_true_eq, not_and]
    intro h1 _
    linarith
  have hsome : (bp0 :: rest).getLast?.isSome := by
    rw [List.getLast?_isSome]
    simp
  obtain ⟨lb, hlast⟩ := Option.isSome_iff_exists.mp hsome
  have hnotgt : ¬(lb.high_conc < c) := by
    have h1 : bp0.high_conc ≤ lb.high_conc :=
      bandsWFb_high_le_last (bp0 :: rest) lb hwf hlast bp0 (by simp)
    have h2 : bp0.low_conc ≤ bp0.high_conc := bandsWFb_head_le hwf
    linarith
  constructor <;> simp [calculate_sub_index, hlook, hnone, hlast, hnotgt]

/-- Witness for the amended C4 at pm25 concentration -30. -/
theorem calculate_sub_index_below_lowest_witness :
    calculate_sub_index AQI_BREAKPOINTS ("pm25") (-30) = 0 ∧
    (0 : ℤ) ≤ calculate_sub_index AQI_BREAKPOINTS ("pm25") (-30) :=
  calculate_sub_index_below_lowest AQI_BREAKPOINTS ("pm25") ⟨0, 30, 0, 50⟩
    [⟨31, 60, 51, 100⟩, ⟨61, 90, 101, 200⟩, ⟨91, 120, 201, 300⟩,
     ⟨121, 250, 301, 400⟩, ⟨251, 500, 401, 500⟩] (-30)
    (by with_unfolding_all decide) (by with_unfolding_all decide) (by with_unfolding_all decide)

/-- The running maximum of the value fold never drops below its start. -/
theorem foldl_max_init_le (l : List (String × ℤ)) : ∀ a : ℤ,
    a ≤ l.foldl (fun m y => max m y.2) a := by
  induction l with
  | nil => intro a; exact le_refl a
  | cons y l ih =>
    intro a
    exact le_trans (le_max_left a y.2) (ih (max a y.2))

/-- Every listed sub-index is bounded by the result of the value fold. -/
theorem foldl_max_mem_le (l : List (String × ℤ)) : ∀ (a : ℤ) (y : String × ℤ), y ∈ l →
    y.2 ≤ l.foldl (fun m y => max m y.2) a := by
  induction l with
  | nil => intro a y hy; simp at hy
  | cons z l ih =>
    intro a y hy
    rcases List.mem_cons.mp hy with rfl | hy2
    · exact le_trans (le_max_right a y.2) (foldl_max_init_le l (max a y.2))
    · exact ih (max a z.2) y hy2

/-- The Python max-by-key fold keeps the first pair attaining the running
maximum: its value is the maximum of the value fold, and it is the first entry
of the list whose value equals that maximum. -/
theorem foldl_argmax (l : List (String × ℤ)) : ∀ x : String × ℤ,
    (l.foldl (fun b y => if y.2 > b.2 then y else b) x).2 =
      l.foldl (fun m y => max m y.2) x.2 ∧
    (x :: l).find? (fun y => y.2 == (l.foldl (fun b y => if y.2 > b.2 then y else b) x).2) =
      some (l.foldl (fun b y => if y.2 > b.2 then y else b) x) := by
  induction l with
  | nil =>
    intro x
    exact ⟨rfl, by simp⟩
  | cons y l ih =>
    intro x
    by_cases hgt : y.2 > x.2
    · have hfold : (y :: l).foldl (fun b y => if y.2 > b.2 then y else b) x =
          l.foldl (fun b y => if y.2 > b.2 then y else b) y := by
        simp [hgt]
      have hmax : (y :: l).foldl (fun m y => max m y.2) x.2 =
          l.foldl (fun m y => max m y.2) y.2 := by
        simp [max_eq_right (le_of_lt hgt)]
      obtain ⟨ih1, ih2⟩ := ih y
      rw [hfold, hmax]
      refine ⟨ih1, ?_⟩
      have hBval : x.2 < (l.foldl (fun b y => if y.2 > b.2 then y else b) y).2 := by
        rw [ih1]; exact lt_of_lt_of_le hgt (foldl_max_init_le l y.2)
      rw [List.find?_cons_of_neg _ (by simp [ne_of_lt hBval])]
      exact ih2
    · have hfold : (y :: l).foldl (fun b y => if y.2 > b.2 then y else b) x =
          l.foldl (fun b y => if y.2 > b.2 then y else b) x := by
        simp [hgt]
      have hmax : (y :: l).foldl (fun m y => max m y.2) x.2 =
          l.foldl (fun m y => max m y.2) x.2 := by
        simp [max_eq_left (not_lt.mp hgt)]
      obtain ⟨ih1, ih2⟩ := ih x
      rw [hfold, hmax]
      refine ⟨ih1, ?_⟩
      by_cases hx : x.2 = (l.foldl (fun b y => if y.2 > b.2 then y else b) x).2
      · have hfx : (x :: l).find?
            (fun y => y.2 == (l.foldl (fun b y => if y.2 > b.2 then y else b) x).2) = some x := by
          rw [List.find?_cons_of_pos _ (by simp [hx])]
        have hxB : x = l.foldl (fun b y => if y.2 > b.2 then y else b) x := by
          have := ih2.symm.trans hfx
          exact (Option.some.injEq _ _ ▸ this).symm
        rw [List.find?_cons_of_pos _ (by simp [hx])]
        exact congrArg some hxB
      · have hxle : x.2 ≤ (l.foldl (fun b y => if y.2 > b.2 then y else b) x).2 := by
          rw [ih1]; exact foldl_max_init_le l x.2
        have hyne : y.2 ≠ (l.foldl (fun b y => if y.2 > b.2 then y else b) x).2 := by
          intro he
          exact hx (le_antisymm hxle (he ▸ not_lt.mp hgt))
        rw [List.find?_cons_of_neg _ (by simp [hx])]
        rw [List.find?_cons_of_neg _ (by simp [hyne])]
        have := ih2
        rw [List.find?_cons_of_neg _ (by simp [hx])] at this
        exact this

/-- C1: the overall index of calculate_aqi is the maximum sub-index over exactly
the pollutants whose concentration is non-null and >= 0 (it bounds every
contributing sub-index and is attained by one of them); when no pollutant
contributes it returns index 0, dominant pollutant none, and category
Good. -/
theorem calculate_aqi_worst_pollutant (tbl : List (String × List Breakpoint))
    (ps : List (String × Option ℚ)) :
    (∀ pv ∈ contributingSubIndices tbl ps, pv.2 ≤ (calculate_aqi tbl ps).aqi) ∧
    (contributingSubIndices tbl ps ≠ [] →
      ∃ pv ∈ contributingSubIndices tbl ps, pv.2 = (calculate_aqi tbl ps).aqi) ∧
    (contributingSubIndices tbl ps = [] →
      (calculate_aqi tbl ps).aqi = 0 ∧
      (calculate_aqi tbl ps).dominant_pollutant = none ∧
      (calculate_aqi tbl ps).category = "Good") := by
  cases h : contributingSubIndices tbl ps with
  | nil =>
    refine ⟨?_, ?_, ?_⟩
    · intro pv hpv
      simp at hpv
    · intro hne
      exact absurd rfl hne
    · intro _
      refine ⟨?_, ?_, ?_⟩ <;>
        simp [calculate_aqi, h, aggregateFrom, get_category_info, AQI_CATEGORIES]
  | cons x rest =>
    have haqi : (calculate_aqi tbl ps).aqi = rest.foldl (fun a y => max a y.2) x.2 := by
      simp [calculate_aqi, h, aggregateFrom]
    refine ⟨?_, ?_, ?_⟩
    · intro pv hpv
      rw [haqi]
      rcases List.mem_cons.mp hpv with rfl | hpv2
      · exact foldl_max_init_le rest pv.2
      · exact foldl_max_mem_le rest x.2 pv hpv2
    · intro _
      obtain ⟨ih1, ih2⟩ := foldl_argmax rest x
      refine ⟨rest.foldl (fun b y => if y.2 > b.2 then y else b) x, ?_, ?_⟩
      · exact List.mem_of_find?_eq_some ih2
      · rw [haqi]
        exact ih1
    · intro h0
      exact absurd h0 (by simp)

/-- Witness for C1: with pm25 = 250 contributing, the overall index is
attained by a contributing sub-index; and the all-null vector yields
(0, none, Good). -/
theorem calculate_aqi_worst_pollutant_witness :
    (∃ pv ∈ contributingSubIndices AQI_BREAKPOINTS [("pm25", some 250), ("pm10", none)],
      pv.2 = (calculate_aqi AQI_BREAKPOINTS [("pm25", some 250), ("pm10", none)]).aqi) ∧
    ((calculate_aqi AQI_BREAKPOINTS [("pm25", none), ("pm10", none)]).aqi = 0 ∧
      (calculate_aqi AQI_BREAKPOINTS [("pm25", none), ("pm10", none)]).dominant_pollutant = none ∧
      (calculate_aqi AQI_BREAKPOINTS [("pm25", none), ("pm10", none)]).category = "Good") :=
  ⟨(calculate_aqi_worst_pollutant AQI_BREAKPOINTS [("pm25", some 250), ("pm10", none)]).2.1
      (by with_unfolding_all decide),
   (calculate_aqi_worst_pollutant AQI_BREAKPOINTS [("pm25", none), ("pm10", none)]).2.2
      (by with_unfolding_all decide)⟩

/-- C5: when at least one pollutant contributes, the dominant pollutant is
the key of the FIRST entry (in the insertion order of the input vector) whose
sub-index equals the overall maximum: first-seen wins on ties. -/
theorem calculate_aqi_dominant_first_max (tbl : List (String × List Breakpoint))
    (ps : List (String × Option ℚ)) (h : contributingSubIndices tbl ps ≠ []) :
    ∃ b : String × ℤ,
      (calculate_aqi tbl ps).dominant_pollutant = some b.1 ∧
      b.2 = (calculate_aqi tbl ps).aqi ∧
      (contributingSubIndices tbl ps).find?
        (fun y => y.2 == (calculate_aqi tbl ps).aqi) = some b := by
  cases hc : contributingSubIndices tbl ps with
  | nil => exact absurd hc h
  | cons x rest =>
    obtain ⟨ih1, ih2⟩ := foldl_argmax rest x
    have haqi : (calculate_aqi tbl ps).aqi = rest.foldl (fun a y => max a y.2) x.2 := by
      simp [calculate_aqi, hc, aggregateFrom]
    have hdom : (calculate_aqi tbl ps).dominant_pollutant =
        some (rest.foldl (fun b y => if y.2 > b.2 then y else b) x).1 := by
      simp [calculate_aqi, hc, aggregateFrom]
    refine ⟨rest.foldl (fun b y => if y.2 > b.2 then y else b) x, hdom, ?_, ?_⟩
    · rw [haqi]
      exact ih1
    · simp only [haqi, ← ih1]
      exact ih2

/-- Witness for C5 on a two-way tie: the unrecognized keys no2 and so2 both
get sub-index 0, and the first-seen key no2 is chosen as dominant. -/
theorem calculate_aqi_dominant_first_max_witness :
    ∃ b : String × ℤ,
      (calculate_aqi AQI_BREAKPOINTS [("no2", some 5), ("so2", some 7)]).dominant_pollutant = some b.1 ∧
      b.2 = (calculate_aqi AQI_BREAKPOINTS [("no2", some 5), ("so2", some 7)]).aqi ∧
      (contributingSubIndices AQI_BREAKPOINTS [("no2", some 5), ("so2", some 7)]).find?
        (fun y => y.2 == (calculate_aqi AQI_BREAKPOINTS [("no2", some 5), ("so2", some 7)]).aqi) = some b :=
  calculate_aqi_dominant_first_max AQI_BREAKPOINTS [("no2", some 5), ("so2", some 7)]
    (by with_unfolding_all decide)

/-- An invalid measurement contributes no reading, for any key. -/
theorem readsOf_cons_none (key : String) (m : Measurement) (ms : List Measurement)
    (h : validValue m = none) : readsOf key (m :: ms) = readsOf key ms := by
  simp [readsOf, List.filterMap_cons, h]

/-- A valid measurement of the key contributes its value first. -/
theorem readsOf_cons_eq {key : String} {m : Measurement} {v : ℚ} (ms : List Measurement)
    (h1 : m.parameter.toLower = key) (h2 : validValue m = some v) :
    readsOf key (m :: ms) = v :: readsOf key ms := by
  simp [readsOf, List.filterMap_cons, h1, h2]

/-- A measurement of a different parameter contributes no reading. -/
theorem readsOf_cons_ne (key : String) (m : Measurement) (ms : List Measurement)
    (h1 : ¬(m.parameter.toLower = key)) : readsOf key (m :: ms) = readsOf key ms := by
  simp [readsOf, List.filterMap_cons, h1]

/-- Each field of the measurement fold is the per-key fold of that key and its
valid readings: the six pollutants evolve independently, each as a running
maximum. -/
theorem foldl_apply_fields : ∀ (ms : List Measurement) (pv : PollutantVector),
    ((ms.foldl applyMeasurement pv).pm25 = (readsOf ("pm25") ms).foldl maxOption pv.pm25) ∧
    ((ms.foldl applyMeasurement pv).pm10 = (readsOf ("pm10") ms).foldl maxOption pv.pm10) ∧
    ((ms.foldl applyMeasurement pv).no2 = (readsOf ("no2") ms).foldl maxOption pv.no2) ∧
    ((ms.foldl applyMeasurement pv).so2 = (readsOf ("so2") ms).foldl maxOption pv.so2) ∧
    ((ms.foldl applyMeasurement pv).co = (readsOf ("co") ms).foldl maxOption pv.co) ∧
    ((ms.foldl applyMeasurement pv).o3 = (readsOf ("o3") ms).foldl maxOption pv.o3) := by
  intro ms
  induction ms with
  | nil => intro pv; simp [readsOf]
  | cons m ms ih =>
    intro pv
    cases hv : validValue m with
    | none =>
      have happ : applyMeasurement pv m = pv := by
        simp [applyMeasurement, hv]
      simp only [List.foldl_cons, happ, readsOf_cons_none _ m ms hv]
      exact ih pv
    | some v =>
      by_cases h1 : m.parameter.toLower = "pm25"
      · have happ : applyMeasurement pv m = { pv with pm25 := maxOption pv.pm25 v } := by
          simp [applyMeasurement, hv, h1]
        simp only [List.foldl_cons, happ, readsOf_cons_eq ms h1 hv,
          readsOf_cons_ne ("pm10") m ms (by rw [h1]; decide),
          readsOf_cons_ne ("no2") m ms (by rw [h1]; decide),
          readsOf_cons_ne ("so2") m ms (by rw [h1]; decide),
          readsOf_cons_ne ("co") m ms (by rw [h1]; decide),
          readsOf_cons_ne ("o3") m ms (by rw [h1]; decide)]
        exact ih _
      · by_cases h2 : m.parameter.toLower = "pm10"
        · have happ : applyMeasurement pv m = { pv with pm10 := maxOption pv.pm10 v } := by
            simp [applyMeasurement, hv, h1, h2]
          simp only [List.foldl_cons, happ, readsOf_cons_eq ms h2 hv,
            readsOf_cons_ne ("pm25") m ms h1,
            readsOf_cons_ne ("no2") m ms (by rw [h2]; decide),
            readsOf_cons_ne ("so2") m ms (by rw [h2]; decide),
            readsOf_cons_ne ("co") m ms (by rw [h2]; decide),
            readsOf_cons_ne ("o3") m ms (by rw [h2]; decide)]
          exact ih _
        · by_cases h3 : m.parameter.toLower = "no2"
          · have happ : applyMeasurement pv m = { pv with no2 := maxOption pv.no2 v } := by
              simp [applyMeasurement, hv, h1, h2, h3]
            simp only [List.foldl_cons, happ, readsOf_cons_eq ms h3 hv,
              readsOf_cons_ne ("pm25") m ms h1,
              readsOf_cons_ne ("pm10") m ms h2,
              readsOf_cons_ne ("so2") m ms (by rw [h3]; decide),
              readsOf_cons_ne ("co") m ms (by rw [h3]; decide),
              readsOf_cons_ne ("o3") m ms (by rw [h3]; decide)]
            exact ih _
          · by_cases h4 : m.parameter.toLower = "so2"
            · have happ : applyMeasurement pv m = { pv with so2 := maxOption pv.so2 v } := by
                simp [applyMeasurement, hv, h1, h2, h3, h4]
              simp only [List.foldl_cons, happ, readsOf_cons_eq ms h4 hv,
                readsOf_cons_ne ("pm25") m ms h1,
                readsOf_cons_ne ("pm10") m ms h2,
                readsOf_cons_ne ("no2") m ms h3,
                readsOf_cons_ne ("co") m ms (by rw [h4]; decide),
                readsOf_cons_ne ("o3") m ms (by rw [h4]; decide)]
              exact ih _
            · by_cases h5 : m.parameter.toLower = "co"
              · have happ : applyMeasurement pv m = { pv with co := maxOption pv.co v } := by
                  simp [applyMeasurement, hv, h1, h2, h3, h4, h5]
                simp only [List.foldl_cons, happ, readsOf_cons_eq ms h5 hv,
                  readsOf_cons_ne ("pm25") m ms h1,
                  readsOf_cons_ne ("pm10") m ms h2,
                  readsOf_cons_ne ("no2") m ms h3,
                  readsOf_cons_ne ("so2") m ms h4,
                  readsOf_cons_ne ("o3") m ms (by rw [h5]; decide)]
                exact ih _
              · by_cases h6 : m.parameter.toLower = "o3"
                · have happ : applyMeasurement pv m = { pv with o3 := maxOption pv.o3 v } := by
                    simp [applyMeasurement, hv, h1, h2, h3, h4, h5, h6]
                  simp only [List.foldl_cons, happ, readsOf_cons_eq ms h6 hv,
                    readsOf_cons_ne ("pm25") m ms h1,
                    readsOf_cons_ne ("pm10") m ms h2,
                    readsOf_cons_ne ("no2") m ms h3,
                    readsOf_cons_ne ("so2") m ms h4,
                    readsOf_cons_ne ("co") m ms h5]
                  exact ih _
                · have happ : applyMeasurement pv m = pv := by
                    simp [applyMeasurement, hv, h1, h2, h3, h4, h5, h6]
                  simp only [List.foldl_cons, happ,
                    readsOf_cons_ne ("pm25") m ms h1,
                    readsOf_cons_ne ("pm10") m ms h2,
                    readsOf_cons_ne ("no2") m ms h3,
                    readsOf_cons_ne ("so2") m ms h4,
                    readsOf_cons_ne ("co") m ms h5,
                    readsOf_cons_ne ("o3") m ms h6]
                  exact ih pv

/-- One maxOption step is the binary omax with a present value. -/
theorem maxOption_eq_omax (o : Option ℚ) (v : ℚ) : maxOption o v = omax o (some v) := by
  cases o with
  | none => rfl
  | some a =>
    show (if v > a then some v else some a) = some (max a v)
    by_cases h : a < v
    · rw [if_pos h, max_eq_right (le_of_lt h)]
    · rw [if_neg h, max_eq_left (not_lt.mp h)]

/-- omax is associative. -/
theorem omax_assoc (a b c : Option ℚ) : omax (omax a b) c = omax a (omax b c) := by
  cases a <;> cases b <;> cases c <;> simp [omax, max_assoc]

/-- omax is commutative. -/
theorem omax_comm (a b : Option ℚ) : omax a b = omax b a := by
  cases a <;> cases b <;> simp [omax, max_comm]

/-- omax is idempotent. -/
theorem omax_self (a : Option ℚ) : omax a a = a := by
  cases a <;> simp [omax]

/-- The maxOption fold from any start is the omax of the start with the
list maximum. -/
theorem foldl_maxOption_eq_omax : ∀ (l : List ℚ) (a : Option ℚ),
    l.foldl maxOption a = omax a (listMaxOption l) := by
  intro l
  induction l with
  | nil => intro a; cases a <;> rfl
  | cons v l ih =>
    intro a
    have hcons : listMaxOption (v :: l) = omax (some v) (listMaxOption l) := by
      show (v :: l).foldl maxOption none = _
      rw [List.foldl_cons, ih]
      rfl
    rw [List.foldl_cons, ih, maxOption_eq_omax, omax_assoc, hcons]

/-- The list maximum splits over append. -/
theorem listMaxOption_append (a b : List ℚ) :
    listMaxOption (a ++ b) = omax (listMaxOption a) (listMaxOption b) := by
  show (a ++ b).foldl maxOption none = _
  rw [List.foldl_append, foldl_maxOption_eq_omax b (a.foldl maxOption none)]
  rfl

/-- Folding station results equals folding the flattened measurement list. -/
theorem aggregate_flatten : ∀ (rs : List (List Measurement)) (pv : PollutantVector),
    rs.foldl (fun pv r => r.foldl applyMeasurement pv) pv = rs.flatten.foldl applyMeasurement pv := by
  intro rs
  induction rs with
  | nil => intro pv; rfl
  | cons r rs ih =>
    intro pv
    simp only [List.foldl_cons, List.flatten_cons, List.foldl_append]
    exact ih _

/-- The valid readings of a key split over appended station lists. -/
theorem validReadings_append (rs1 rs2 : List (List Measurement)) (key : String) :
    validReadings (rs1 ++ rs2) key = validReadings rs1 key ++ validReadings rs2 key := by
  simp [validReadings, readsOf, List.flatten_append, List.filterMap_append]

/-- Each field of the merge is the maximum of the valid readings of that key. -/
theorem aggregate_fields (rs : List (List Measurement)) :
    (aggregate_measurements rs).pm25 = listMaxOption (validReadings rs ("pm25")) ∧
    (aggregate_measurements rs).pm10 = listMaxOption (validReadings rs ("pm10")) ∧
    (aggregate_measurements rs).no2 = listMaxOption (validReadings rs ("no2")) ∧
    (aggregate_measurements rs).so2 = listMaxOption (validReadings rs ("so2")) ∧
    (aggregate_measurements rs).co = listMaxOption (validReadings rs ("co")) ∧
    (aggregate_measurements rs).o3 = listMaxOption (validReadings rs ("o3")) := by
  have h := foldl_apply_fields rs.flatten emptyVector
  rw [aggregate_measurements, aggregate_flatten]
  exact h

/-- C6: the multi-station merge sets each pollutant to the maximum of all
non-null, non-negative readings of that pollutant across every station
(null when no such reading exists anywhere); consequently the merge is
order-insensitive over station lists and idempotent on duplicated
readings. -/
theorem aggregate_measurements_spec (rs rs1 rs2 : List (List Measurement)) :
    ((aggregate_measurements rs).pm25 = listMaxOption (validReadings rs ("pm25")) ∧
     (aggregate_measurements rs).pm10 = listMaxOption (validReadings rs ("pm10")) ∧
     (aggregate_measurements rs).no2 = listMaxOption (validReadings rs ("no2")) ∧
     (aggregate_measurements rs).so2 = listMaxOption (validReadings rs ("so2")) ∧
     (aggregate_measurements rs).co = listMaxOption (validReadings rs ("co")) ∧
     (aggregate_measurements rs).o3 = listMaxOption (validReadings rs ("o3"))) ∧
    aggregate_measurements (rs1 ++ rs2) = aggregate_measurements (rs2 ++ rs1) ∧
    aggregate_measurements (rs ++ rs) = aggregate_measurements rs := by
  refine ⟨aggregate_fields rs, ?_, ?_⟩
  · obtain ⟨a1, a2, a3, a4, a5, a6⟩ := aggregate_fields (rs1 ++ rs2)
    obtain ⟨b1, b2, b3, b4, b5, b6⟩ := aggregate_fields (rs2 ++ rs1)
    apply PollutantVector.ext
    · rw [a1, b1, validReadings_append, validReadings_append,
        listMaxOption_append, listMaxOption_append, omax_comm]
    · rw [a2, b2, validReadings_append, validReadings_append,
        listMaxOption_append, listMaxOption_append, omax_comm]
    · rw [a3, b3, validReadings_append, validReadings_append,
        listMaxOption_append, listMaxOption_append, omax_comm]
    · rw [a4, b4, validReadings_append, validReadings_append,
        listMaxOption_append, listMaxOption_append, omax_comm]
    · rw [a5, b5, validReadings_append, validReadings_append,
        listMaxOption_append, listMaxOption_append, omax_comm]
    · rw [a6, b6, validReadings_append, validReadings_append,
        listMaxOption_append, listMaxOption_append, omax_comm]
  · obtain ⟨a1, a2, a3, a4, a5, a6⟩ := aggregate_fields (rs ++ rs)
    obtain ⟨b1, b2, b3, b4, b5, b6⟩ := aggregate_fields rs
    apply PollutantVector.ext
    · rw [a1, b1, validReadings_append, listMaxOption_append, omax_self]
    · rw [a2, b2, validReadings_append, listMaxOption_append, omax_self]
    · rw [a3, b3, validReadings_append, listMaxOption_append, omax_self]
    · rw [a4, b4, validReadings_append, listMaxOption_append, omax_self]
    · rw [a5, b5, validReadings_append, listMaxOption_append, omax_self]
    · rw [a6, b6, validReadings_append, listMaxOption_append, omax_self]
